import Mathlib

/-!
Shallow embedding of the timal media ingestion and storage-quota engine:
`src/src/media-handler.js` (MediaHandler), `src/src/r2-storage.js` (R2Storage)
and `src/db/database.js` (Database). Pure helpers are translated to Lean
functions; the two stores (SQLite rows, R2 objects) become an explicit `State`
record threaded through each operation; external effects whose outcome the
JavaScript code cannot control (network success, image decoding, clock,
randomness) are supplied by an `Env` record. JavaScript numbers used for
megabyte accounting are modelled as exact rationals.
-/

namespace Timal

/-- A Node.js Buffer: a sequence of bytes. -/
abbrev Buffer := List (Fin 256)

/-- Account tiers (database.js:49, CHECK constraint on users.tier). -/
inductive Tier
  | free
  | personal
  | pro
deriving DecidableEq

/-- Media kinds (media-handler.js:34-41). -/
inductive MediaType
  | image
  | video
deriving DecidableEq

/-- Structured content of the spec-modelled quota decision (spec section 4.2):
a rejection names either the zero-ceiling tier or the remaining headroom. -/
inductive QuotaReason
  | ok
  | quotaExceededTier (tier : Tier)
  | quotaExceededHeadroom (remainingMB : ℚ)
deriving DecidableEq

/-- Exceptions thrown by the handler code. `jsError msg` models
`throw new Error(msg)`; `quotaExceeded` models the `Error(permission.reason)`
thrown at media-handler.js:54, carrying the spec-modelled reason structurally;
`typeError` models the runtime TypeError raised by a property read on
`undefined`. -/
inductive JsError
  | jsError (msg : String)
  | quotaExceeded (reason : QuotaReason)
  | typeError
deriving DecidableEq

/-- ASCII lower-casing, `String.prototype.toLowerCase` restricted to the ASCII
characters that occur in file extensions (media-handler.js:30). -/
def lowerAscii (s : String) : String :=
  String.mk (s.toList.map Char.toLower)

/-- Index (counted from the front) of the last occurrence of `c` in `l`. -/
def lastIdxOf (c : Char) (l : List Char) : Option Nat :=
  match List.findIdx? (fun x => x = c) l.reverse with
  | none => none
  | some j => some (l.length - 1 - j)

/-- The part of a path after the last separator, `path.basename(p)` with no
extension argument (POSIX). -/
def basenameRaw (p : String) : String :=
  let l := p.toList
  match List.findIdx? (fun x => x = '/') l.reverse with
  | none => p
  | some j => String.mk (l.drop (l.length - j))

/-- Model of Node `path.extname`: the substring of the basename from its last
dot, or empty when there is no dot, when the only dot leads the basename
(dotfiles), or when the basename is exactly `..`. -/
def extname (p : String) : String :=
  let b := (basenameRaw p).toList
  if b = [ '.', '.' ] then ""
  else
    match lastIdxOf '.' b with
    | none => ""
    | some 0 => ""
    | some i => String.mk (b.drop i)

/-- Model of Node `path.basename(p, ext)`: the basename with the suffix `ext`
removed, unless `ext` is empty or equals the whole basename. -/
def basename (p ext : String) : String :=
  let b := basenameRaw p
  if ext ≠ "" ∧ b ≠ ext ∧ ext.toList.isSuffixOf b.toList then
    String.mk (b.toList.take (b.toList.length - ext.toList.length))
  else b

/-- One character of `.replace(/[^a-zA-Z0-9-_]/g, '_')` (r2-storage.js:34):
characters outside ASCII letters, digits, dash and underscore become `_`. -/
def sanitizeChar (c : Char) : Char :=
  if ( 'a' ≤ c ∧ c ≤ 'z') ∨ ( 'A' ≤ c ∧ c ≤ 'Z') ∨ ( '0' ≤ c ∧ c ≤ '9') ∨ c = '-' ∨ c = '_'
  then c else '_'

/-- `basename.replace(/[^a-zA-Z0-9-_]/g, '_').substring(0, 50)`
(r2-storage.js:33-35). -/
def sanitizeBaseName (s : String) : String :=
  String.mk ((s.toList.map sanitizeChar).take 50)

/-- Lower-case hexadecimal digit for `n < 16`. -/
def hexDigitChar (n : Nat) : Char :=
  if n < 10 then Char.ofNat ( '0'.toNat + n) else Char.ofNat ( 'a'.toNat + (n - 10))

/-- The Node hex encoding of a byte buffer: each byte becomes two lower-case hex digits. -/
def bytesToHexChars : List (Fin 256) → List Char
  | [] => []
  | b :: bs => hexDigitChar (b.val / 16) :: hexDigitChar (b.val % 16) :: bytesToHexChars bs

/-- Object-key generation of `R2Storage.uploadFile` (r2-storage.js:29-37):
`users/` then the user id, a slash, `Date.now()`, an underscore, the hex of
8 random bytes, an underscore, the sanitized base name, then the original
(not lower-cased) extension. -/
def generatedKey (userId : Nat) (timestamp : Nat) (randomBytes : List (Fin 256))
    (originalFilename : String) : String :=
  let randomId := String.mk (bytesToHexChars randomBytes)
  let extension := extname originalFilename
  let sanitizedName := sanitizeBaseName (basename originalFilename extension)
  "users/" ++ toString userId ++ "/" ++ toString timestamp ++ "_" ++ randomId
    ++ "_" ++ sanitizedName ++ extension

/-- Supported image extensions (media-handler.js:11). -/
def supportedImages : List String := [".jpg", ".jpeg", ".png", ".webp", ".gif"]

/-- Supported video extensions (media-handler.js:12). -/
def supportedVideos : List String := [".mp4", ".webm", ".mov", ".avi"]

/-- Per-kind size ceilings in MB (media-handler.js:13-16). -/
def maxFileSizeMBNat : MediaType → Nat
  | .image => 10
  | .video => 100

/-- The ceilings as rationals, for comparison against the computed size. -/
def maxFileSizeMB (mt : MediaType) : ℚ := maxFileSizeMBNat mt

/-- The string used in the interpolated size-limit error message. -/
def mediaTypeStr : MediaType → String
  | .image => "image"
  | .video => "video"

/-- The message thrown at media-handler.js:45. -/
def fileTooLargeMsg (mt : MediaType) : String :=
  "File too large. Max size for " ++ mediaTypeStr mt ++ ": "
    ++ toString (maxFileSizeMBNat mt) ++ "MB"

/-- TierLimits: the per-tier storage ceiling in MB. Modelled from the spec:
this table is external configuration; the defaults come from the repository
README env template (FREE_TIER_STORAGE_MB=0, PERSONAL_TIER_STORAGE_MB=600,
PRO_TIER_STORAGE_MB=-1). -/
def tierStorageLimitMB : Tier → Int
  | .free => 0
  | .personal => 600
  | .pro => -1

/-- The reserved value meaning an unbounded ceiling (spec section 3,
README PRO_TIER_STORAGE_MB=-1). -/
def unlimitedSentinel : Int := -1

/-- The object `{allowed, reason}` consumed at media-handler.js:52-55. -/
structure Permission where
  allowed : Bool
  reason : QuotaReason
deriving DecidableEq

/-- Modelled from the spec: `MediaHandler.checkMediaUploadPermission` is
invoked at media-handler.js:52 with `(userId, fileSizeMB, user.tier,
user.storage_used_mb)` but is defined nowhere under src/. Spec section 4.2:
look up the tier ceiling; if it is the unlimited sentinel, admit
unconditionally; if it is zero, reject with QuotaExceeded naming the tier;
otherwise admit iff `storage_used + prospective_size <= ceiling`, and on
rejection state the remaining headroom. -/
def checkMediaUploadPermission (_userId : Nat) (fileSizeMB : ℚ) (tier : Tier)
    (storageUsedMB : ℚ) : Permission :=
  let ceiling := tierStorageLimitMB tier
  if ceiling = unlimitedSentinel then ⟨true, .ok⟩
  else if ceiling = 0 then ⟨false, .quotaExceededTier tier⟩
  else if storageUsedMB + fileSizeMB ≤ (ceiling : ℚ) then ⟨true, .ok⟩
  else ⟨false, .quotaExceededHeadroom ((ceiling : ℚ) - storageUsedMB)⟩

/-- A users-table row, the fields the handler reads (database.js:44-52). -/
structure User where
  tier : Tier
  storage_used_mb : ℚ
deriving DecidableEq

/-- A media_attachments row (database.js:76-91, columns written at
database.js:311-324). -/
structure AttachmentRow where
  entry_id : Nat
  media_type : MediaType
  filename : String
  original_filename : String
  file_size_mb : ℚ
  r2_key : String
  thumbnail_r2_key : Option String
  width : Option Nat
  height : Option Nat
  duration : Option Nat
deriving DecidableEq

/-- The row returned by `Database.getMediaAttachment` (database.js:329-336):
`SELECT ma.*, te.user_id AS entry_user_id FROM media_attachments ma JOIN
timeline_entries te ON ma.entry_id = te.id WHERE ma.id = ?`. Its properties
are the media_attachments columns plus the flat alias `entry_user_id`; there
is no nested `entry` property on this object. -/
structure MediaRow where
  row : AttachmentRow
  entry_user_id : Nat
deriving DecidableEq

/-- The mutable world: SQLite tables plus the R2 bucket. `r2deleteCalls` is an
audit trace recording every DeleteObjectCommand issued (successful or not),
used to state whether a compensating delete was ever attempted. -/
structure State where
  users : List (Nat × User)
  entries : List (Nat × Nat)
  media : List (Nat × AttachmentRow)
  nextMediaId : Nat
  r2objects : List String
  r2deleteCalls : List String
deriving DecidableEq

/-- Outcomes of the external effects the JavaScript cannot control: the clock
and randomness consumed by key generation, the sharp decoder and encoder, and
the success of each remote call. -/
structure Env where
  timestamp : Nat
  randomBytes : List (Fin 256)
  imageDecode : Buffer → Option (Nat × Nat)
  jpegEncode : Buffer → Nat × Nat → Buffer
  r2PutOk : Bool
  r2DeleteOk : String → Bool
  dbInsertOk : Bool
  dbInsertErrMsg : String

/-- `Database.getUserById` (database.js:167-169). -/
def getUserById (st : State) (userId : Nat) : Option User :=
  st.users.lookup userId

/-- `Database.updateUserStorageUsage` (database.js:188-190): stores the given
absolute value, with no clamping of any kind. -/
def updateUserStorageUsage (st : State) (userId : Nat) (storageUsedMb : ℚ) : State :=
  let setRow := fun (p : Nat × User) =>
    if p.1 = userId then (p.1, (⟨p.2.tier, storageUsedMb⟩ : User)) else p
  { st with users := st.users.map setRow }

/-- `Database.getMediaAttachment` (database.js:329-336): the JOIN yields a row
only when the owning timeline entry exists. -/
def getMediaAttachment (st : State) (mediaId : Nat) : Option MediaRow :=
  match st.media.lookup mediaId with
  | none => none
  | some row =>
    match st.entries.lookup row.entry_id with
    | none => none
    | some uid => some ⟨row, uid⟩

/-- `Database.deleteMediaAttachment` (database.js:341-343). -/
def deleteMediaAttachment (st : State) (mediaId : Nat) : State :=
  { st with media := st.media.filter (fun p => p.1 != mediaId) }

/-- `Database.createMediaAttachment` (database.js:311-324); the INSERT may
fail, in which case the promise rejects and nothing is written. -/
def createMediaAttachment (env : Env) (st : State) (row : AttachmentRow) :
    Except JsError Nat × State :=
  if env.dbInsertOk then
    (Except.ok st.nextMediaId,
      { st with media := st.media ++ [(st.nextMediaId, row)],
                nextMediaId := st.nextMediaId + 1 })
  else (Except.error (.jsError env.dbInsertErrMsg), st)

/-- `R2Storage.uploadFile` (r2-storage.js:27-67): generate the key, PUT the
object, return the key and the byte size of the stored buffer. On a failed
PUT it throws and the bucket is unchanged (the backend error text appended to
the rethrown message is not modelled). -/
def r2UploadFile (env : Env) (st : State) (fileBuffer : Buffer)
    (originalFilename : String) (userId : Nat) : Except JsError (String × Nat) × State :=
  let key := generatedKey userId env.timestamp env.randomBytes originalFilename
  if env.r2PutOk then
    (Except.ok (key, fileBuffer.length), { st with r2objects := st.r2objects ++ [key] })
  else (Except.error (.jsError "Failed to upload file"), st)

/-- `R2Storage.deleteFile` (r2-storage.js:95-108). Every issued delete is
recorded in the audit trace; on failure it throws and the bucket is
unchanged. -/
def r2DeleteFile (env : Env) (st : State) (key : String) : Except JsError Bool × State :=
  let st1 := { st with r2deleteCalls := st.r2deleteCalls ++ [key] }
  if env.r2DeleteOk key then
    (Except.ok true, { st1 with r2objects := st1.r2objects.filter (fun k => k != key) })
  else (Except.error (.jsError "Failed to delete file"), st1)

/-- `R2Storage.getSignedUrl` (r2-storage.js:75-88), abstracted: the presigner
output is modelled as an injective token of the key and the expiry. -/
def r2SignedUrl (key : String) (expiresInSeconds : Nat) : String :=
  "signed:" ++ key ++ ":" ++ toString expiresInSeconds

/-- The options object built at media-handler.js:126-134 and passed to
`sharp.resize`. -/
structure ResizeOpts where
  width : Option Nat
  height : Option Nat
  withoutEnlargement : Bool
deriving DecidableEq

/-- media-handler.js:124-134: when either side exceeds 2048, request width 2048
when width is the strictly longer side, height 2048 when height is the
strictly longer side, and null for the other side; otherwise pass the empty
options object. Note that when width = height both requested sides are null. -/
def computeResizeOpts (w h : Nat) : ResizeOpts :=
  if w > 2048 ∨ h > 2048 then
    ⟨if w > h then some 2048 else none, if h > w then some 2048 else none, true⟩
  else ⟨none, none, false⟩

/-- Round-to-nearest of `a / b` (half away from zero), as sharp does when
deriving the unconstrained side. -/
def roundDiv (a b : Nat) : Nat := (2 * a + b) / (2 * b)

/-- Modelled dimension semantics of `sharp.resize(opts)`: with no requested
side the pixels are untouched; with one requested side the image is scaled to
that side, the other side scaled proportionally (rounded), except that
`withoutEnlargement` keeps the original when the target would not shrink it.
Both sides requested cannot arise from `computeResizeOpts`. -/
def sharpResizeDims (opts : ResizeOpts) (w h : Nat) : Nat × Nat :=
  match opts.width, opts.height with
  | none, none => (w, h)
  | some tw, none =>
    if opts.withoutEnlargement ∧ w ≤ tw then (w, h) else (tw, roundDiv (h * tw) w)
  | none, some th =>
    if opts.withoutEnlargement ∧ h ≤ th then (w, h) else (roundDiv (w * th) h, th)
  | some tw, some th => (tw, th)

/-- width/height (and duration for videos) as recorded on the attachment. -/
structure Dims where
  width : Nat
  height : Nat
  duration : Option Nat
deriving DecidableEq

/-- `MediaHandler.processImage` (media-handler.js:119-155): decode metadata
(failure throws `Failed to process image`), compute the resize options,
re-encode as JPEG, and read the final dimensions back from the re-encoded
buffer. JPEG encoding preserves pixel dimensions, so the read-back equals the
resize output. -/
def processImage (env : Env) (imageBuffer : Buffer) : Except JsError (Buffer × Dims) :=
  match env.imageDecode imageBuffer with
  | none => Except.error (.jsError "Failed to process image")
  | some (w, h) =>
    let d := sharpResizeDims (computeResizeOpts w h) w h
    Except.ok (env.jpegEncode imageBuffer d, ⟨d.1, d.2, none⟩)

/-- `MediaHandler.getVideoDimensions` (media-handler.js:162-170): placeholder
constants; the buffer is never inspected. -/
def getVideoDimensions (_videoBuffer : Buffer) : Dims := ⟨1920, 1080, some 60⟩

/-- media-handler.js:35-41: image extensions first, then video, else
unsupported. -/
def determineMediaType (extension : String) : Option MediaType :=
  if supportedImages.contains extension then some .image
  else if supportedVideos.contains extension then some .video
  else none

/-- The validation stage of `MediaHandler.processAndUpload`
(media-handler.js:30-46): lower-case the extension, compute the size in MB
from the buffer length, classify, and enforce the per-kind ceiling. -/
def validateUpload (fileBuffer : Buffer) (originalFilename : String) :
    Except JsError (MediaType × ℚ) :=
  let extension := lowerAscii (extname originalFilename)
  let fileSizeMB : ℚ := (fileBuffer.length : ℚ) / (1024 * 1024)
  match determineMediaType extension with
  | none => Except.error (.jsError ("Unsupported file type: " ++ extension))
  | some mt =>
    if fileSizeMB > maxFileSizeMB mt then Except.error (.jsError (fileTooLargeMsg mt))
    else Except.ok (mt, fileSizeMB)

/-- The value returned by a successful `processAndUpload`
(media-handler.js:100-106); the public url field is not modelled. -/
structure UploadResult where
  id : Nat
  mediaType : MediaType
  dimensions : Dims
  fileSize : Nat
deriving DecidableEq

/-- `MediaHandler.processAndUpload` from the permission check onward
(media-handler.js:52-106), with `user` the snapshot read at line 49. Both the
quota check (line 52) and the usage-counter write (line 98) use this snapshot;
the write stores `user.storage_used_mb + size` as an absolute value. -/
def uploadWithUser (env : Env) (st : State) (user : User) (mt : MediaType)
    (fileSizeMB : ℚ) (fileBuffer : Buffer) (originalFilename : String)
    (userId entryId : Nat) : Except JsError UploadResult × State :=
  let permission := checkMediaUploadPermission userId fileSizeMB user.tier user.storage_used_mb
  if permission.allowed = false then (Except.error (.quotaExceeded permission.reason), st)
  else
    let processed : Except JsError (Buffer × Dims) :=
      match mt with
      | .image => processImage env fileBuffer
      | .video => Except.ok (fileBuffer, getVideoDimensions fileBuffer)
    match processed with
    | .error e => (Except.error e, st)
    | .ok (processedBuffer, dims) =>
      match r2UploadFile env st processedBuffer originalFilename userId with
      | (.error e, st1) => (Except.error e, st1)
      | (.ok (key, size), st1) =>
        let row : AttachmentRow :=
          ⟨entryId, mt, basenameRaw key, originalFilename, (size : ℚ) / (1024 * 1024),
            key, none, some dims.width, some dims.height, dims.duration⟩
        match createMediaAttachment env st1 row with
        | (.error e, st2) => (Except.error e, st2)
        | (.ok mediaId, st2) =>
          let st3 := updateUserStorageUsage st2 userId
            (user.storage_used_mb + (size : ℚ) / (1024 * 1024))
          (Except.ok ⟨mediaId, mt, dims, size⟩, st3)

/-- `MediaHandler.processAndUpload` (media-handler.js:28-112): validate, load
the user (`User not found` when absent), then run the rest on that snapshot.
Any thrown error propagates to the caller (the catch at line 108 logs and
rethrows). -/
def processAndUpload (env : Env) (st : State) (fileBuffer : Buffer)
    (originalFilename : String) (_mimeType : String) (userId entryId : Nat) :
    Except JsError UploadResult × State :=
  match validateUpload fileBuffer originalFilename with
  | .error e => (Except.error e, st)
  | .ok (mt, fileSizeMB) =>
    match getUserById st userId with
    | none => (Except.error (.jsError "User not found"), st)
    | some user => uploadWithUser env st user mt fileSizeMB fileBuffer originalFilename userId entryId

/-- JavaScript semantics of `media.entry.user_id` (media-handler.js:182 and
215): the row returned by getMediaAttachment carries the flat column
`entry_user_id` and has no `entry` property, so `media.entry` is `undefined`
and the nested read `.user_id` throws a TypeError. -/
def evalMediaEntryUserId (_media : MediaRow) : Except JsError Nat :=
  Except.error .typeError

/-- The value passed to updateUserStorageUsage at media-handler.js:197:
`user.storage_used_mb - media.file_size_mb`, with no floor at zero. -/
def deletionUsageWrite (user : User) (media : MediaRow) : ℚ :=
  user.storage_used_mb - media.row.file_size_mb

/-- `MediaHandler.deleteMedia` (media-handler.js:178-204). The steps after the
ownership check are transcribed faithfully from lines 186-199 but are
unreachable: `evalMediaEntryUserId` always throws. The fresh user read at
line 196 yielding `undefined` would make `.storage_used_mb` throw, also
modelled. -/
def deleteMedia (env : Env) (st : State) (mediaId userId : Nat) :
    Except JsError Bool × State :=
  match getMediaAttachment st mediaId with
  | none => (Except.error (.jsError "Media not found or access denied"), st)
  | some media =>
    match evalMediaEntryUserId media with
    | .error e => (Except.error e, st)
    | .ok entryUserId =>
      if entryUserId ≠ userId then
        (Except.error (.jsError "Media not found or access denied"), st)
      else
        match r2DeleteFile env st media.row.r2_key with
        | (.error e, st1) => (Except.error e, st1)
        | (.ok _, st1) =>
          let thumbStep : Except JsError Bool × State :=
            match media.row.thumbnail_r2_key with
            | some tk => r2DeleteFile env st1 tk
            | none => (Except.ok true, st1)
          match thumbStep with
          | (.error e, st2) => (Except.error e, st2)
          | (.ok _, st2) =>
            let st3 := deleteMediaAttachment st2 mediaId
            match getUserById st3 userId with
            | none => (Except.error .typeError, st3)
            | some user =>
              let st4 := updateUserStorageUsage st3 userId (deletionUsageWrite user media)
              (Except.ok true, st4)

/-- `MediaHandler.getMediaUrl` (media-handler.js:212-226): same lookup and
ownership check as deletion, then a signed URL with the default expiry of
3600 seconds (r2-storage.js:75). -/
def getMediaUrl (st : State) (mediaId userId : Nat) : Except JsError String × State :=
  match getMediaAttachment st mediaId with
  | none => (Except.error (.jsError "Media not found or access denied"), st)
  | some media =>
    match evalMediaEntryUserId media with
    | .error e => (Except.error e, st)
    | .ok entryUserId =>
      if entryUserId ≠ userId then
        (Except.error (.jsError "Media not found or access denied"), st)
      else (Except.ok (r2SignedUrl media.row.r2_key 3600), st)

/-- Two uploads for the same account run to completion one after the other;
each reads the user fresh. -/
def serialTwoUploads (env1 env2 : Env) (st : State) (b1 : Buffer) (n1 : String)
    (b2 : Buffer) (n2 : String) (userId entryId : Nat) :
    (Except JsError UploadResult × Except JsError UploadResult) × State :=
  let r1 := processAndUpload env1 st b1 n1 "" userId entryId
  let r2 := processAndUpload env2 r1.2 b2 n2 "" userId entryId
  ((r1.1, r2.1), r2.2)

/-- One legal interleaving of two concurrent `processAndUpload` tasks for the
same account: both tasks validate and complete their awaited
`getUserById` read (media-handler.js:49) before either performs any write;
each task then runs its remaining steps in program order. Both quota checks
therefore see the same stale usage snapshot. The fallback branch is never
used in the scenarios considered. -/
def interleavedTwoUploads (env1 env2 : Env) (st : State) (b1 : Buffer) (n1 : String)
    (b2 : Buffer) (n2 : String) (userId entryId : Nat) :
    (Except JsError UploadResult × Except JsError UploadResult) × State :=
  match validateUpload b1 n1, validateUpload b2 n2, getUserById st userId with
  | .ok (mt1, s1), .ok (mt2, s2), some user =>
    let r1 := uploadWithUser env1 st user mt1 s1 b1 n1 userId entryId
    let r2 := uploadWithUser env2 r1.2 user mt2 s2 b2 n2 userId entryId
    ((r1.1, r2.1), r2.2)
  | _, _, _ =>
    ((Except.error (.jsError "User not found"), Except.error (.jsError "User not found")), st)

/-- A lower-case hexadecimal character. -/
def IsHexDigit (c : Char) : Prop :=
  ( '0' ≤ c ∧ c ≤ '9') ∨ ( 'a' ≤ c ∧ c ≤ 'f')

instance (c : Char) : Decidable (IsHexDigit c) := by
  unfold IsHexDigit; infer_instance

/-- Membership in the character class [A-Za-z0-9_-] named by the key-format
claim. -/
def IsKeySafeChar (c : Char) : Prop :=
  ( 'A' ≤ c ∧ c ≤ 'Z') ∨ ( 'a' ≤ c ∧ c ≤ 'z') ∨ ( '0' ≤ c ∧ c ≤ '9') ∨ c = '_' ∨ c = '-'

instance (c : Char) : Decidable (IsKeySafeChar c) := by
  unfold IsKeySafeChar; infer_instance

/-- The sanitization the key-format claim describes: every character outside
[A-Za-z0-9_-] replaced by an underscore, then truncated to 50 characters. -/
def claimSanitizedBaseName (s : String) : String :=
  String.mk ((s.toList.map (fun c => if IsKeySafeChar c then c else '_')).take 50)

/-- Environment in which every external call succeeds; the image decoder is
never consulted by the video scenarios that use it. -/
def allOkEnv : Env :=
  ⟨1000, List.replicate 8 0, fun _ => none, fun b _ => b, true, fun _ => true, true,
    "insert failed"⟩

/-- Environment whose object-store delete always fails. -/
def r2FailEnv : Env :=
  ⟨1000, List.replicate 8 0, fun _ => none, fun b _ => b, true, fun _ => false, true,
    "insert failed"⟩

/-- Environment where the metadata INSERT fails (the PUT still succeeds). -/
def insertFailEnv : Env :=
  ⟨1234, List.replicate 8 0, fun _ => none, fun b _ => b, true, fun _ => true, false,
    "SQLITE_BUSY: database is locked"⟩

/-- Environment whose decoder reads every buffer as a 3000 by 3000 image. -/
def squareDecodeEnv : Env :=
  ⟨0, List.replicate 8 0, fun _ => some (3000, 3000), fun _ _ => [], true, fun _ => true,
    true, ""⟩

/-- A second all-success environment with a different clock and randomness. -/
def envB : Env :=
  ⟨2000, List.replicate 8 1, fun _ => none, fun b _ => b, true, fun _ => true, true, ""⟩

/-- One-byte file content. -/
def smallBuf : Buffer := [0]

/-- A stored 2 MB video attachment hanging off entry 1. -/
def sampleRow : AttachmentRow :=
  ⟨1, .video, "k.mp4", "clip.mp4", 2, "users/7/1000_00_k.mp4", none, some 1920,
    some 1080, some 60⟩

/-- User 7 (personal tier, 1 MB recorded usage) owns entry 1, which carries
attachment 1 = sampleRow; the object is present in the bucket. -/
def sampleState : State :=
  ⟨[(7, ⟨.personal, 1⟩)], [(1, 7)], [(1, sampleRow)], 2, ["users/7/1000_00_k.mp4"], []⟩

/-- User 7 (personal tier, zero usage) owning entry 1; empty stores. -/
def smallState : State := ⟨[(7, ⟨.personal, 0⟩)], [(1, 7)], [], 1, [], []⟩

/-- The key generated by insertFailEnv for an upload named clip.mp4 by
user 7. -/
def orphanKey : String := generatedKey 7 1234 (List.replicate 8 0) "clip.mp4"

/-- One byte expressed in MB. -/
def oneByteMB : ℚ := 1 / 1048576

/-- User 7 sitting exactly two bytes below the personal-tier ceiling, owning
entry 1. -/
def headroomState : State :=
  ⟨[(7, ⟨.personal, 600 - 2 * oneByteMB⟩)], [(1, 7)], [], 1, [], []⟩

/-- C2 (code_bug evidence): no deletion ever succeeds — the ownership check at
media-handler.js:182 reads `media.entry.user_id` while the row only carries
`entry_user_id`, so even the owner deleteMedia call throws a TypeError with the
state untouched; and the usage value the (unreachable) write at line 197 would
store is `storage_used - file_size` with no floor at zero: for recorded usage
1 MB and attachment size 2 MB it is -1, a negative value. -/
theorem deletion_crashes_and_usage_write_unfloored :
    deleteMedia allOkEnv sampleState 1 7 = (Except.error JsError.typeError, sampleState) ∧
    deletionUsageWrite ⟨Tier.personal, 1⟩ ⟨sampleRow, 7⟩ = -1 ∧
    deletionUsageWrite ⟨Tier.personal, 1⟩ ⟨sampleRow, 7⟩ < 0 := by
  refine ⟨rfl, ?_, ?_⟩ <;> norm_num [deletionUsageWrite, sampleRow]

/-- C3 (code_bug evidence): the ownership check itself crashes — for an
existing attachment both the owner (user 7) and a non-owner (user 99) get a
TypeError from `media.entry.user_id` (media-handler.js:182, 215) rather than
an access-denied error, and the owner never proceeds to the signed URL or to
deletion; no state is mutated. -/
theorem ownership_check_always_throws :
    getMediaUrl sampleState 1 7 = (Except.error JsError.typeError, sampleState) ∧
    getMediaUrl sampleState 1 99 = (Except.error JsError.typeError, sampleState) ∧
    deleteMedia allOkEnv sampleState 1 99 = (Except.error JsError.typeError, sampleState) :=
  ⟨rfl, rfl, rfl⟩

/-- C4 (code_bug evidence): in an environment whose object-store delete would
fail, the deletion of attachment 1 by the owner leaves the metadata row present and
storage_used unchanged — but only because the TypeError at the ownership check
aborts the operation before the object-store delete is ever attempted: the
audit trace of issued deletes stays empty. -/
theorem object_store_delete_never_reached :
    deleteMedia r2FailEnv sampleState 1 7 = (Except.error JsError.typeError, sampleState) ∧
    getMediaAttachment sampleState 1 = some ⟨sampleRow, 7⟩ ∧
    (deleteMedia r2FailEnv sampleState 1 7).2.r2deleteCalls = [] ∧
    getMediaAttachment (deleteMedia r2FailEnv sampleState 1 7).2 1 = some ⟨sampleRow, 7⟩ ∧
    getUserById (deleteMedia r2FailEnv sampleState 1 7).2 7 = some ⟨Tier.personal, 1⟩ :=
  ⟨rfl, rfl, rfl, rfl, rfl⟩

/-- C6 (code_bug evidence): a decodable 3000 by 3000 image is not resized —
because width = height, both requested sides at media-handler.js:130-131 are
null and sharp leaves the pixels untouched, so the transformed output keeps
longer side 3000, not 2048. -/
theorem square_image_not_resized :
    processImage squareDecodeEnv [] = Except.ok ([], ⟨3000, 3000, none⟩) ∧
    computeResizeOpts 3000 3000 = ⟨none, none, true⟩ ∧
    ¬(3000 ≤ 2048) := by
  exact ⟨rfl, rfl, by norm_num⟩

/-- C1: for an existing account the quota decision admits unconditionally when
the tier ceiling is the unlimited sentinel; rejects unconditionally (naming
the tier) when the ceiling is zero; and otherwise admits iff
`storage_used + size <= ceiling` (boundary admitted), stating the remaining
headroom on rejection. The function is modelled from spec section 4.2 because
`checkMediaUploadPermission` is called at media-handler.js:52 but defined
nowhere under src/. -/
theorem quota_decision_spec (userId : Nat) (tier : Tier) (U S : ℚ) :
    ((checkMediaUploadPermission userId S tier U).allowed = true ↔
      (tierStorageLimitMB tier = unlimitedSentinel ∨
        (tierStorageLimitMB tier ≠ 0 ∧ U + S ≤ (tierStorageLimitMB tier : ℚ)))) ∧
    (tierStorageLimitMB tier ≠ unlimitedSentinel → tierStorageLimitMB tier = 0 →
      checkMediaUploadPermission userId S tier U = ⟨false, .quotaExceededTier tier⟩) ∧
    (tierStorageLimitMB tier ≠ unlimitedSentinel → tierStorageLimitMB tier ≠ 0 →
      ¬(U + S ≤ (tierStorageLimitMB tier : ℚ)) →
      checkMediaUploadPermission userId S tier U =
        ⟨false, .quotaExceededHeadroom ((tierStorageLimitMB tier : ℚ) - U)⟩) := by
  cases tier <;>
    simp only [checkMediaUploadPermission, tierStorageLimitMB, unlimitedSentinel] <;>
    norm_num
  by_cases h : U + S ≤ (600 : ℚ)
  · rw [if_pos h]
    simp [h]
  · rw [if_neg h]
    simp [h]

/-- Witness for C1, using the end-to-end scenarios of spec section 8: a
personal-tier account at 590 MB is admitted for a 5 MB upload, and at 595 MB
is rejected for a 20 MB upload with 5 MB of headroom reported. -/
theorem quota_decision_spec_witness :
    (checkMediaUploadPermission 7 5 Tier.personal 590).allowed = true ∧
    checkMediaUploadPermission 7 20 Tier.personal 595 =
      ⟨false, .quotaExceededHeadroom 5⟩ := by
  constructor
  · exact (quota_decision_spec 7 Tier.personal 590 5).1.mpr
      (Or.inr ⟨by norm_num [tierStorageLimitMB], by norm_num [tierStorageLimitMB]⟩)
  · have h := (quota_decision_spec 7 Tier.personal 595 20).2.2
      (by norm_num [tierStorageLimitMB, unlimitedSentinel])
      (by norm_num [tierStorageLimitMB])
      (by norm_num [tierStorageLimitMB])
    rw [h]
    norm_num [tierStorageLimitMB]

/-- C7: the validator classifies by case-insensitive filename extension
against the configured sets, failing with the unsupported-type error for any
other extension; it computes the size in MB from the buffer length and fails
with the file-too-large error, naming the exceeded limit, iff that size
exceeds the per-kind ceiling (10 MB images, 100 MB videos); and every
validation failure propagates out of processAndUpload with the state
unchanged (no side effects). -/
theorem upload_validation_spec (fileBuffer : Buffer) (originalFilename : String) :
    (∀ e env st mime userId entryId,
        validateUpload fileBuffer originalFilename = Except.error e →
        processAndUpload env st fileBuffer originalFilename mime userId entryId =
          (Except.error e, st)) ∧
    (determineMediaType (lowerAscii (extname originalFilename)) = none →
        validateUpload fileBuffer originalFilename =
          Except.error (.jsError ("Unsupported file type: "
            ++ lowerAscii (extname originalFilename)))) ∧
    (∀ mt, determineMediaType (lowerAscii (extname originalFilename)) = some mt →
      (((fileBuffer.length : ℚ) / (1024 * 1024) > maxFileSizeMB mt →
          validateUpload fileBuffer originalFilename =
            Except.error (.jsError (fileTooLargeMsg mt))) ∧
       (¬((fileBuffer.length : ℚ) / (1024 * 1024) > maxFileSizeMB mt) →
          validateUpload fileBuffer originalFilename =
            Except.ok (mt, (fileBuffer.length : ℚ) / (1024 * 1024))))) := by
  refine ⟨?_, ?_, ?_⟩
  · intro e env st mime userId entryId hval
    simp [processAndUpload, hval]
  · intro hnone
    simp [validateUpload, hnone]
  · intro mt hmt
    constructor
    · intro hgt
      simp only [validateUpload, hmt]
      rw [if_pos hgt]
    · intro hle
      simp only [validateUpload, hmt]
      rw [if_neg hle]

/-- Witness for C7: an unknown extension (case-insensitively lowered) is
rejected as unsupported with the state untouched, and a one-byte upper-case
JPG passes validation as an image of its exact size in MB. -/
theorem upload_validation_spec_witness :
    processAndUpload allOkEnv smallState [] "a.XYZ" "application/bin" 7 1 =
      (Except.error (.jsError "Unsupported file type: .xyz"), smallState) ∧
    validateUpload smallBuf "photo.JPG" =
      Except.ok (MediaType.image, (smallBuf.length : ℚ) / (1024 * 1024)) := by
  constructor
  · have h2 := (upload_validation_spec [] "a.XYZ").2.1 (by decide)
    have h3 : "Unsupported file type: " ++ lowerAscii (extname "a.XYZ") =
        "Unsupported file type: .xyz" := by decide
    rw [h3] at h2
    exact (upload_validation_spec [] "a.XYZ").1 _ allOkEnv smallState "application/bin" 7 1 h2
  · exact ((upload_validation_spec smallBuf "photo.JPG").2.2 MediaType.image (by decide)).2
      (by norm_num [smallBuf, maxFileSizeMB, maxFileSizeMBNat])

theorem sanitizeChar_eq_claim (c : Char) :
    sanitizeChar c = if IsKeySafeChar c then c else '_' := by
  unfold sanitizeChar IsKeySafeChar
  split_ifs with h1 h2 <;> first | rfl | tauto

theorem sanitizeBaseName_eq_claim (s : String) :
    sanitizeBaseName s = claimSanitizedBaseName s := by
  have hf : sanitizeChar = fun c => if IsKeySafeChar c then c else '_' :=
    funext sanitizeChar_eq_claim
  unfold sanitizeBaseName claimSanitizedBaseName
  rw [hf]

theorem bytesToHexChars_length (bs : List (Fin 256)) :
    (bytesToHexChars bs).length = 2 * bs.length := by
  induction bs with
  | nil => rfl
  | cons b bs ih => simp only [bytesToHexChars, List.length_cons, ih]; omega

theorem hexDigitChar_isHex (n : Nat) (h : n < 16) : IsHexDigit (hexDigitChar n) := by
  interval_cases n <;> decide

theorem bytesToHexChars_hex (bs : List (Fin 256)) :
    ∀ c ∈ bytesToHexChars bs, IsHexDigit c := by
  induction bs with
  | nil => intro c hc; simp [bytesToHexChars] at hc
  | cons b bs ih =>
    intro c hc
    simp only [bytesToHexChars, List.mem_cons] at hc
    rcases hc with h | h | h
    · subst h; exact hexDigitChar_isHex _ (by have := b.isLt; omega)
    · subst h; exact hexDigitChar_isHex _ (by have := b.isLt; omega)
    · exact ih c h

theorem claimSanitizedBaseName_length (s : String) :
    (claimSanitizedBaseName s).length ≤ 50 := by
  have h : (claimSanitizedBaseName s).length =
      ((s.toList.map fun c => if IsKeySafeChar c then c else '_').take 50).length := rfl
  rw [h, List.length_take]
  omega

theorem claimSanitizedBaseName_chars (s : String) :
    ∀ c ∈ (claimSanitizedBaseName s).toList, IsKeySafeChar c := by
  intro c hc
  have h : (claimSanitizedBaseName s).toList =
      (s.toList.map fun x => if IsKeySafeChar x then x else '_').take 50 := rfl
  rw [h] at hc
  have hc2 := List.take_subset 50 _ hc
  rcases List.mem_map.mp hc2 with ⟨a, _, ha⟩
  by_cases hk : IsKeySafeChar a
  · rw [if_pos hk] at ha; rw [← ha]; exact hk
  · rw [if_neg hk] at ha; rw [← ha]; decide

/-- C8: the generated object key is exactly
users/{accountId}/{unixMillis}_{16-hex-random}_{sanitizedBaseName}{ext}: the
random component is 16 (lower-case) hexadecimal characters, and the sanitized
base name is the original base without extension with every character outside
[A-Za-z0-9_-] replaced by an underscore, truncated to 50 characters. -/
theorem upload_key_format (userId timestamp : Nat) (randomBytes : List (Fin 256))
    (originalFilename : String) (h8 : randomBytes.length = 8) :
    ∃ hex : String,
      generatedKey userId timestamp randomBytes originalFilename =
        "users/" ++ toString userId ++ "/" ++ toString timestamp ++ "_" ++ hex ++ "_"
          ++ claimSanitizedBaseName (basename originalFilename (extname originalFilename))
          ++ extname originalFilename
      ∧ hex.length = 16
      ∧ (∀ c ∈ hex.toList, IsHexDigit c)
      ∧ (claimSanitizedBaseName (basename originalFilename (extname originalFilename))).length ≤ 50
      ∧ (∀ c ∈ (claimSanitizedBaseName
            (basename originalFilename (extname originalFilename))).toList,
          IsKeySafeChar c) := by
  refine ⟨String.mk (bytesToHexChars randomBytes), ?_, ?_, ?_,
    claimSanitizedBaseName_length _, claimSanitizedBaseName_chars _⟩
  · show "users/" ++ toString userId ++ "/" ++ toString timestamp ++ "_"
        ++ String.mk (bytesToHexChars randomBytes) ++ "_"
        ++ sanitizeBaseName (basename originalFilename (extname originalFilename))
        ++ extname originalFilename =
      "users/" ++ toString userId ++ "/" ++ toString timestamp ++ "_"
        ++ String.mk (bytesToHexChars randomBytes) ++ "_"
        ++ claimSanitizedBaseName (basename originalFilename (extname originalFilename))
        ++ extname originalFilename
    rw [sanitizeBaseName_eq_claim]
  · show (bytesToHexChars randomBytes).length = 16
    rw [bytesToHexChars_length, h8]
  · intro c hc
    exact bytesToHexChars_hex _ c hc

/-- Witness for C8 at a concrete upload: user 42, a fixed clock, 8 zero bytes
of randomness, and a filename containing spaces, parentheses and an
upper-case extension. -/
theorem upload_key_format_witness :
    ∃ hex : String,
      generatedKey 42 1700000000000 (List.replicate 8 (0 : Fin 256)) "My Photo (1).JPG" =
        "users/" ++ toString (42 : Nat) ++ "/" ++ toString (1700000000000 : Nat) ++ "_"
          ++ hex ++ "_"
          ++ claimSanitizedBaseName (basename "My Photo (1).JPG" (extname "My Photo (1).JPG"))
          ++ extname "My Photo (1).JPG"
      ∧ hex.length = 16
      ∧ (∀ c ∈ hex.toList, IsHexDigit c)
      ∧ (claimSanitizedBaseName
          (basename "My Photo (1).JPG" (extname "My Photo (1).JPG"))).length ≤ 50
      ∧ (∀ c ∈ (claimSanitizedBaseName
            (basename "My Photo (1).JPG" (extname "My Photo (1).JPG"))).toList,
          IsKeySafeChar c) :=
  upload_key_format 42 1700000000000 (List.replicate 8 (0 : Fin 256)) "My Photo (1).JPG"
    (by simp)

theorem uploadWithUser_video_run (env : Env) (st : State) (user : User) (fileSizeMB : ℚ)
    (fileBuffer : Buffer) (originalFilename : String) (userId entryId : Nat)
    (hperm : (checkMediaUploadPermission userId fileSizeMB user.tier
        user.storage_used_mb).allowed = true)
    (hput : env.r2PutOk = true) (hins : env.dbInsertOk = true) :
    uploadWithUser env st user .video fileSizeMB fileBuffer originalFilename userId entryId =
      (Except.ok ⟨st.nextMediaId, .video, ⟨1920, 1080, some 60⟩, fileBuffer.length⟩,
        updateUserStorageUsage
          { st with
              r2objects := st.r2objects
                ++ [generatedKey userId env.timestamp env.randomBytes originalFilename],
              media := st.media ++ [(st.nextMediaId,
                ⟨entryId, .video,
                  basenameRaw (generatedKey userId env.timestamp env.randomBytes originalFilename),
                  originalFilename, (fileBuffer.length : ℚ) / (1024 * 1024),
                  generatedKey userId env.timestamp env.randomBytes originalFilename, none,
                  some 1920, some 1080, some 60⟩)],
              nextMediaId := st.nextMediaId + 1 }
          userId (user.storage_used_mb + (fileBuffer.length : ℚ) / (1024 * 1024))) := by
  unfold uploadWithUser
  simp [hperm, r2UploadFile, hput, createMediaAttachment, hins, getVideoDimensions]

theorem uploadWithUser_video_insertFail (env : Env) (st : State) (user : User)
    (fileSizeMB : ℚ) (fileBuffer : Buffer) (originalFilename : String) (userId entryId : Nat)
    (hperm : (checkMediaUploadPermission userId fileSizeMB user.tier
        user.storage_used_mb).allowed = true)
    (hput : env.r2PutOk = true) (hins : env.dbInsertOk = false) :
    uploadWithUser env st user .video fileSizeMB fileBuffer originalFilename userId entryId =
      (Except.error (.jsError env.dbInsertErrMsg),
        { st with r2objects := st.r2objects
            ++ [generatedKey userId env.timestamp env.randomBytes originalFilename] }) := by
  unfold uploadWithUser
  simp [hperm, r2UploadFile, hput, createMediaAttachment, hins, getVideoDimensions]

/-- C10: for every accepted video upload the recorded width, height and
duration are the constants 1920, 1080 and 60 — getVideoDimensions never
inspects its buffer (it is constant on all inputs) — and both the returned
result and the inserted attachment row carry these placeholder values, with no
field marking them as anything other than measured data. -/
theorem video_dimensions_placeholder (env : Env) (st : State) (fileBuffer : Buffer)
    (originalFilename mime : String) (userId entryId : Nat) (user : User) (fileSizeMB : ℚ)
    (hval : validateUpload fileBuffer originalFilename = Except.ok (.video, fileSizeMB))
    (huser : getUserById st userId = some user)
    (hperm : (checkMediaUploadPermission userId fileSizeMB user.tier
        user.storage_used_mb).allowed = true)
    (hput : env.r2PutOk = true) (hins : env.dbInsertOk = true) :
    (∀ b1 b2 : Buffer, getVideoDimensions b1 = getVideoDimensions b2) ∧
    (processAndUpload env st fileBuffer originalFilename mime userId entryId).1 =
      Except.ok ⟨st.nextMediaId, .video, ⟨1920, 1080, some 60⟩, fileBuffer.length⟩ ∧
    (processAndUpload env st fileBuffer originalFilename mime userId entryId).2.media =
      st.media ++ [(st.nextMediaId,
        ⟨entryId, .video,
          basenameRaw (generatedKey userId env.timestamp env.randomBytes originalFilename),
          originalFilename, (fileBuffer.length : ℚ) / (1024 * 1024),
          generatedKey userId env.timestamp env.randomBytes originalFilename, none,
          some 1920, some 1080, some 60⟩)] := by
  have hrun := uploadWithUser_video_run env st user fileSizeMB fileBuffer originalFilename
    userId entryId hperm hput hins
  refine ⟨fun b1 b2 => rfl, ?_, ?_⟩ <;>
    simp [processAndUpload, hval, huser, hrun, updateUserStorageUsage]

/-- Witness for C10: a one-byte mp4 uploaded by user 7 is recorded with
width 1920, height 1080 and duration 60. -/
theorem video_dimensions_placeholder_witness :
    (∀ b1 b2 : Buffer, getVideoDimensions b1 = getVideoDimensions b2) ∧
    (processAndUpload allOkEnv smallState smallBuf "clip.mp4" "video/mp4" 7 1).1 =
      Except.ok ⟨smallState.nextMediaId, .video, ⟨1920, 1080, some 60⟩, smallBuf.length⟩ ∧
    (processAndUpload allOkEnv smallState smallBuf "clip.mp4" "video/mp4" 7 1).2.media =
      smallState.media ++ [(smallState.nextMediaId,
        ⟨1, .video,
          basenameRaw (generatedKey 7 allOkEnv.timestamp allOkEnv.randomBytes "clip.mp4"),
          "clip.mp4", (smallBuf.length : ℚ) / (1024 * 1024),
          generatedKey 7 allOkEnv.timestamp allOkEnv.randomBytes "clip.mp4", none,
          some 1920, some 1080, some 60⟩)] := by
  have hval : validateUpload smallBuf "clip.mp4" =
      Except.ok (.video, (smallBuf.length : ℚ) / (1024 * 1024)) := by
    have hmt : determineMediaType (lowerAscii (extname "clip.mp4")) = some .video := by decide
    simp only [validateUpload, hmt]
    rw [if_neg (by norm_num [smallBuf, maxFileSizeMB, maxFileSizeMBNat])]
  exact video_dimensions_placeholder allOkEnv smallState smallBuf "clip.mp4" "video/mp4" 7 1
    ⟨Tier.personal, 0⟩ ((smallBuf.length : ℚ) / (1024 * 1024)) hval rfl
    (by norm_num [checkMediaUploadPermission, tierStorageLimitMB, unlimitedSentinel,
      smallBuf]) rfl rfl

/-- C5 (code_bug evidence): when the metadata INSERT fails after a successful
object-store PUT, processAndUpload rethrows the raw database error. The
just-written object stays in the bucket as an orphan, the audit trace shows
that no compensating delete was ever issued, no metadata row exists, and the
usage counter is untouched; the surfaced error is exactly the database
message, which does not carry the orphan key. -/
theorem orphan_object_not_compensated :
    (processAndUpload insertFailEnv smallState smallBuf "clip.mp4" "video/mp4" 7 1).1 =
      Except.error (.jsError "SQLITE_BUSY: database is locked") ∧
    (processAndUpload insertFailEnv smallState smallBuf "clip.mp4" "video/mp4" 7 1).2.r2objects
      = [orphanKey] ∧
    (processAndUpload insertFailEnv smallState smallBuf "clip.mp4" "video/mp4" 7 1).2.r2deleteCalls
      = [] ∧
    (processAndUpload insertFailEnv smallState smallBuf "clip.mp4" "video/mp4" 7 1).2.media
      = [] ∧
    (processAndUpload insertFailEnv smallState smallBuf "clip.mp4" "video/mp4" 7 1).2.users
      = smallState.users := by
  have hval : validateUpload smallBuf "clip.mp4" =
      Except.ok (.video, (smallBuf.length : ℚ) / (1024 * 1024)) := by
    have hmt : determineMediaType (lowerAscii (extname "clip.mp4")) = some .video := by decide
    simp only [validateUpload, hmt]
    rw [if_neg (by norm_num [smallBuf, maxFileSizeMB, maxFileSizeMBNat])]
  have huser : getUserById smallState 7 = some ⟨Tier.personal, 0⟩ := rfl
  have hfail := uploadWithUser_video_insertFail insertFailEnv smallState ⟨Tier.personal, 0⟩
    ((smallBuf.length : ℚ) / (1024 * 1024)) smallBuf "clip.mp4" 7 1
    (by norm_num [checkMediaUploadPermission, tierStorageLimitMB, unlimitedSentinel,
      smallBuf]) rfl rfl
  refine ⟨?_, ?_, ?_, ?_, ?_⟩
  all_goals simp only [processAndUpload, hval, huser, hfail]
  all_goals simp [smallState, insertFailEnv, orphanKey]

/-- C9 (code_bug evidence): user 7 sits two bytes below the 600 MB personal
ceiling and uploads two one-byte videos. Serialized (in either order) the
final counter is exactly 600. In the interleaving where both tasks read the
user before either writes, both isolated quota checks pass against the same
stale snapshot, both uploads commit (two objects are stored), and the two
absolute counter writes collapse: the final counter is 600 minus one byte,
different from every serial outcome — the uploads do not behave as if
serialized. -/
theorem stale_snapshot_not_serializable :
    (interleavedTwoUploads allOkEnv envB headroomState smallBuf "a.mp4" smallBuf "b.mp4" 7 1).1 =
      (Except.ok ⟨1, .video, ⟨1920, 1080, some 60⟩, 1⟩,
        Except.ok ⟨2, .video, ⟨1920, 1080, some 60⟩, 1⟩) ∧
    getUserById
        (interleavedTwoUploads allOkEnv envB headroomState smallBuf "a.mp4" smallBuf "b.mp4" 7 1).2
        7 = some ⟨Tier.personal, 600 - oneByteMB⟩ ∧
    getUserById
        (serialTwoUploads allOkEnv envB headroomState smallBuf "a.mp4" smallBuf "b.mp4" 7 1).2
        7 = some ⟨Tier.personal, 600⟩ ∧
    getUserById
        (serialTwoUploads envB allOkEnv headroomState smallBuf "b.mp4" smallBuf "a.mp4" 7 1).2
        7 = some ⟨Tier.personal, 600⟩ ∧
    (interleavedTwoUploads allOkEnv envB headroomState smallBuf "a.mp4" smallBuf
        "b.mp4" 7 1).2.r2objects.length = 2 ∧
    (600 - oneByteMB : ℚ) ≠ 600 := by
  have hvalA : validateUpload smallBuf "a.mp4" =
      Except.ok (.video, (smallBuf.length : ℚ) / (1024 * 1024)) := by
    have hmt : determineMediaType (lowerAscii (extname "a.mp4")) = some .video := by decide
    simp only [validateUpload, hmt]
    rw [if_neg (by norm_num [smallBuf, maxFileSizeMB, maxFileSizeMBNat])]
  have hvalB : validateUpload smallBuf "b.mp4" =
      Except.ok (.video, (smallBuf.length : ℚ) / (1024 * 1024)) := by
    have hmt : determineMediaType (lowerAscii (extname "b.mp4")) = some .video := by decide
    simp only [validateUpload, hmt]
    rw [if_neg (by norm_num [smallBuf, maxFileSizeMB, maxFileSizeMBNat])]
  have huser : getUserById headroomState 7 =
      some ⟨Tier.personal, 600 - 2 * oneByteMB⟩ := rfl
  refine ⟨?_, ?_, ?_, ?_, ?_, by norm_num [oneByteMB]⟩
  all_goals
    simp only [interleavedTwoUploads, serialTwoUploads, processAndUpload, hvalA, hvalB, huser]
  all_goals
    norm_num [uploadWithUser, r2UploadFile, createMediaAttachment, updateUserStorageUsage,
      getUserById, getVideoDimensions, checkMediaUploadPermission, tierStorageLimitMB,
      unlimitedSentinel, headroomState, smallBuf, allOkEnv, envB, oneByteMB]

end Timal
